import Mathlib

/-!
Verification of the KeOS grading harness (`keos-projects/.cargo/run.py`).

The Python script is shallowly embedded below: paths and captured output are
Lean strings, Python sets become finsets, the file system seen by a scan is an
explicit list of file records, and fallible operations (exceptions, division
faults) are modelled with `Option` and `Except`.
-/

namespace KeOSRun

/-- Character-list infix test: does `p` occur contiguously inside `l`? -/
def infixOf (p : List Char) : List Char → Bool
  | [] => p.isEmpty
  | c :: rest => p.isPrefixOf (c :: rest) || infixOf p rest

/-- Embedding of the Python substring test `pat in s`. -/
def strContains (s pat : String) : Bool := infixOf pat.data s.data

/-- Embedding of Python `s.endswith(suffix)`. -/
def strEndsWith (s sfx : String) : Bool := sfx.data.isSuffixOf s.data

/-- Embedding of Python `s.startswith(pfx)`. -/
def strStartsWith (s pfx : String) : Bool := pfx.data.isPrefixOf s.data

/-- Embedding of Python `s[:-1]`. -/
def strDropLast (s : String) : String := String.mk s.data.dropLast

/-- Split a character list at every occurrence of the separator `c`. -/
def splitOnChar (c : Char) : List Char → List (List Char)
  | [] => [[]]
  | x :: xs =>
    let r := splitOnChar c xs
    if x = c then [] :: r
    else
      match r with
      | [] => [[x]]
      | h :: t => (x :: h) :: t

/-- Embedding of `Path(path_str).name`: the segment after the last slash. -/
def fileName (s : String) : String :=
  String.mk ((splitOnChar '/' s.data).getLastD [])

/-- Unix glob match on character lists (the subset of `fnmatch` semantics used
by the script: literal characters, `*` and `?`). -/
def globMatch : List Char → List Char → Bool
  | [], [] => true
  | [], p :: ps => p = '*' && globMatch [] ps
  | _ :: _, [] => false
  | c :: cs, p :: ps =>
    if p = '*' then globMatch (c :: cs) ps || globMatch cs ('*' :: ps)
    else (p = '?' || p = c) && globMatch cs ps
  termination_by s p => (s.length, p.length)

/-- The fixed pattern list `IGNORED_PATTERNS` from `is_ignored`. -/
def IGNORED_PATTERNS : List String :=
  ["target/", "build/", "build_objects/", "keos_kernel", "ffs.bin", "sfs.bin",
   ".o", "kelibc.a", ".cargo/template/", "Cargo.lock"]

/-- Test of a single entry of `IGNORED_PATTERNS` against a path, exactly as the
loop body of `is_ignored` does: directory patterns (ending in a slash) match as
interior or final path segments, patterns containing a star are glob-matched
against the filename, everything else is a substring test on the whole path. -/
def matchesIgnoredPattern (path_str pattern : String) : Bool :=
  if strEndsWith pattern "/" then
    strContains path_str ("/" ++ strDropLast pattern ++ "/") ||
      strEndsWith path_str ("/" ++ strDropLast pattern)
  else if strContains pattern "*" then
    globMatch (fileName path_str).data pattern.data
  else
    strContains path_str pattern

/-- Embedding of `is_ignored` from `run.py`: the special `rootfs` handling with
its exception list, then the `IGNORED_PATTERNS` loop. -/
def is_ignored (path_str : String) : Bool :=
  if strContains path_str "/rootfs/" || strEndsWith path_str "/rootfs" then
    if strEndsWith path_str "/rootfs" then true
    else
      let file_name := fileName path_str
      if strStartsWith file_name "hello" then false
      else if file_name = "os-release" then false
      else if file_name = "simple_fs.tar" then false
      else true
  else
    IGNORED_PATTERNS.any (fun pattern => matchesIgnoredPattern path_str pattern)


/-! ## Live-capture loop of `grade_single` (`live` branch)

The loop reads lines from the QEMU subprocess; a line containing the terminal
clear sequence resets the accumulation buffer and is skipped by `continue`
(so it is neither echoed nor accumulated); every other line is written to the
console and appended to the buffer. We model one run of the loop on the finite
list of lines the process emits, returning the final buffer together with the
list of lines actually written to standard output. -/

/-- The terminal clear-screen control sequence checked by `grade_single`. -/
def clearSeq : String := "\x1bc"

/-- One iteration of the live-capture loop: state is the accumulated buffer
and the list of lines mirrored to the console so far. -/
def liveStep (st : String × List String) (out : String) : String × List String :=
  if strContains out clearSeq then ("", st.2)
  else (st.1 ++ out, st.2 ++ [out])

/-- The live-capture loop of `grade_single`: fold `liveStep` over the lines
emitted by the subprocess, starting from an empty buffer. The first component
is the string `grade_single` returns; the second lists the mirrored lines. -/
def live_capture (lines : List String) : String × List String :=
  lines.foldl liveStep ("", [])

/-- The lines the live loop mirrors to the console: exactly those not
containing the clear sequence (a specification-side description, to be proved
equal to the loop result). -/
def mirroredLines (lines : List String) : List String :=
  lines.filter (fun l => !(strContains l clearSeq))

/-- The buffer the live loop ends with: the concatenation of the lines
strictly after the last line containing the clear sequence (a
specification-side description, to be proved equal to the loop result). -/
def accumulatedBuffer : List String → String
  | [] => ""
  | l :: rest =>
    if strContains l clearSeq then accumulatedBuffer rest
    else if rest.any (fun x => strContains x clearSeq) then accumulatedBuffer rest
    else l ++ accumulatedBuffer rest

/-! ## Blocking mode of `grade_single` and test classification in `grade` -/

/-- Result of `subprocess.run` as `grade_single` sees it: either the captured
standard output, or a raised exception (`TimeoutExpired` or any launch
failure), collapsed to `Except Unit String`. -/
def subprocess_run_model (launchOk : Bool) (runtime timeout : ℚ)
    (stdout : String) : Except Unit String :=
  if launchOk = false then .error ()
  else if timeout < runtime then .error ()
  else .ok stdout

/-- The non-live branch of `grade_single`: return the captured stdout, and on
any exception return the sentinel string. -/
def grade_single_blocking (res : Except Unit String) : String :=
  match res with
  | .ok s => s
  | .error _ => "timeout"

/-- The fixed success marker `grade` searches for in the captured output. -/
def success_marker : String := "test result: ok. 1 passed; 0 failed"

/-- Per-test configuration fields used by `grade`: the timeout
(`conf.get('timeout', 30)`) and the optional `post-hook` command list. -/
structure TestConf where
  timeout : ℚ
  posthook : Option (List String)

/-- A post-hook runner: given the configured command and the timeout passed to
`subprocess.run`, yields the process return code or a raised exception. -/
def PosthookRunner : Type := List String → ℚ → Except Unit Int

/-- Classification of one test by `grade`: `passed` is the marker test on the
captured output; when a post-hook command is configured and the primary check
passed, the post-hook runs with the same timeout and `passed` becomes
`returncode == 0`, any exception counting as failure. Returns the final
verdict together with whether the post-hook was executed. -/
def grade_test (r : PosthookRunner) (conf : TestConf) (output : String) :
    Bool × Bool :=
  let passed := strContains output success_marker
  match conf.posthook with
  | some cmd =>
    if passed then
      match r cmd conf.timeout with
      | .ok rc => (rc == 0, true)
      | .error _ => (false, true)
    else (passed, false)
  | none => (passed, false)

/-- The grading loop of `grade` over all rubrics, with the captured output of
each test supplied by `outputs` (the result of its `grade_single` run):
produces the `grading_result` mapping each rubric to its per-test verdicts. -/
def grade_model (r : PosthookRunner)
    (rubrics : List (String × List (String × TestConf)))
    (outputs : String → String) : List (String × List (String × Bool)) :=
  rubrics.map (fun rb =>
    (rb.1, rb.2.map (fun t => (t.1, (grade_test r t.2 (outputs t.1)).1))))

/-! ## `summarize` -/

/-- Score accounting of `summarize`: fold over the grading result, looking up
each rubric weight and adding `rscore / len(rubric) * rmaxscore`. A rubric
with an empty test map makes the Python code divide by zero, modelled as
`none`; otherwise returns `(score, max_score, passed, tests)`. -/
def summarize_scores (rubrics : List (String × ℚ))
    (grading_result : List (String × List (String × Bool))) :
    Option (ℚ × ℚ × Nat × Nat) :=
  grading_result.foldlM (fun acc rb => do
    let rmaxscore ← (rubrics.lookup rb.1)
    let rscore : Nat := (rb.2.filter (fun t => t.2)).length
    let n : Nat := rb.2.length
    if n = 0 then none
    else some (acc.1 + (rscore : ℚ) / (n : ℚ) * rmaxscore,
               acc.2.1 + rmaxscore, acc.2.2.1 + rscore, acc.2.2.2 + n))
    ((0 : ℚ), (0 : ℚ), (0 : Nat), (0 : Nat))


/-! ## `build_cumulative_whitelist`

The per-project whitelists live in `.grade-target` files on disk; the
environment is abstracted as a function `wl` from project number to that
project's whitelist (`get_project_whitelist`, with `[]` for a missing or
unparsable file). The loop `for project_num in range(1, current+1)` updates a
Python set, skipping empty lists. -/

/-- Embedding of `build_cumulative_whitelist`: union of the whitelists of
projects `1..n`, built exactly as the loop does (empty per-project lists are
skipped; the accumulator is a set). -/
def build_cumulative_whitelist (wl : Nat → List String) : Nat → Finset String
  | 0 => ∅
  | n + 1 =>
    build_cumulative_whitelist wl n ∪
      (if wl (n + 1) = [] then ∅ else (wl (n + 1)).toFinset)

/-! ## `check_directory_integrity`

A scan walks the files under `repo_root / directory_name`; the walk with its
directory pruning is abstracted as the list of file records the inner loop
visits. Each record carries the full path string, the path relative to the
scanned directory, whether the template reference file exists, and the two
SHA256 hashes (`none` when `get_file_hash` cannot read the file). -/

/-- One file visited by the `os.walk` loop of `check_directory_integrity`. -/
structure ScannedFile where
  path : String
  rel_path : String
  originalExists : Bool
  currentHash : Option String
  originalHash : Option String
  deriving DecidableEq

/-- Embedding of Python `s.replace(pat, rep)` on character lists: replace
every non-overlapping occurrence, left to right (for a nonempty pattern). The
fuel argument makes the recursion structural; `strReplace` supplies the input
length, which is always enough fuel since every step consumes a character. -/
def replaceAllAux (pat rep : List Char) : Nat → List Char → List Char
  | _, [] => []
  | 0, l => l
  | fuel + 1, c :: rest =>
    if pat.isPrefixOf (c :: rest) then
      rep ++ replaceAllAux pat rep fuel (rest.drop (pat.length - 1))
    else c :: replaceAllAux pat rep fuel rest

/-- Embedding of Python `s.replace(pat, rep)` for the nonempty patterns the
script uses. -/
def strReplace (s pat rep : String) : String :=
  if pat.data = [] then s
  else String.mk (replaceAllAux pat.data rep.data s.data.length s.data)


/-- Whitelist test of `check_directory_integrity`: only in the
`keos-projects` directory, a file is whitelisted when its relative path starts
with `keos-project{k}/` for some `k` from 1 to the current project number and
the remainder (after `str.replace` of the prefix) is in the cumulative
whitelist. -/
def is_whitelisted (directory_name : String) (cumulative_whitelist : List String)
    (current_project_num : Nat) (rel : String) : Bool :=
  if directory_name = "keos-projects" then
    (List.range current_project_num).any (fun k =>
      let project_pfx := "keos-project" ++ toString (k + 1) ++ "/"
      strStartsWith rel project_pfx &&
        cumulative_whitelist.contains (strReplace rel project_pfx ""))
  else false

/-- Per-file violation test, in the order of the inner loop of
`check_directory_integrity`: ignored files are skipped, whitelisted files are
skipped, files without a template reference are skipped, and the remaining
files are violations exactly when the two hashes differ. -/
def file_violation (directory_name : String) (cumulative_whitelist : List String)
    (current_project_num : Nat) (f : ScannedFile) : Bool :=
  if is_ignored f.path then false
  else if is_whitelisted directory_name cumulative_whitelist current_project_num
      f.rel_path then false
  else if f.originalExists = false then false
  else f.currentHash ≠ f.originalHash

/-- The violation records `check_directory_integrity` collects: empty when the
scanned directory does not exist, otherwise the visited files that fail
`file_violation`. -/
def violation_records (dirExists : Bool) (files : List ScannedFile)
    (directory_name : String) (cumulative_whitelist : List String)
    (current_project_num : Nat) : List ScannedFile :=
  if dirExists = false then []
  else files.filter
    (file_violation directory_name cumulative_whitelist current_project_num)

/-- Embedding of `check_directory_integrity`: the returned value is the list
of relative paths of the violation records. The `mode` argument selects the
side effect applied to each violation (warn print or restore) and does not
change the returned list. -/
def check_directory_integrity (dirExists : Bool) (files : List ScannedFile)
    (directory_name : String) (cumulative_whitelist : List String)
    (current_project_num : Nat) (mode : String) : List String :=
  let _ := mode
  (violation_records dirExists files directory_name cumulative_whitelist
      current_project_num).map ScannedFile.rel_path

/-! ## Theorems -/

theorem string_empty_append (s : String) : "" ++ s = s := rfl

theorem string_append_assoc (a b c : String) : (a ++ b) ++ c = a ++ (b ++ c) :=
  congrArg String.mk (List.append_assoc a.data b.data c.data)

theorem liveStep_foldl (lines : List String) (acc : String) (w : List String) :
    lines.foldl liveStep (acc, w) =
      ((if lines.any (fun l => strContains l clearSeq) then accumulatedBuffer lines
        else acc ++ accumulatedBuffer lines),
       w ++ mirroredLines lines) := by
  induction lines generalizing acc w with
  | nil => simp [accumulatedBuffer, mirroredLines]
  | cons l rest ih =>
    rw [List.foldl_cons]
    by_cases hcl : strContains l clearSeq = true
    · rw [show liveStep (acc, w) l = ("", w) from by simp [liveStep, hcl], ih]
      simp [mirroredLines, accumulatedBuffer, hcl, string_empty_append]
    · have hcl' : strContains l clearSeq = false := by
        revert hcl; cases strContains l clearSeq <;> simp
      rw [show liveStep (acc, w) l = (acc ++ l, w ++ [l]) from by simp [liveStep, hcl'], ih]
      simp [mirroredLines, accumulatedBuffer, hcl', string_append_assoc]
      by_cases hany : ∃ x ∈ rest, strContains x clearSeq = true <;> simp [hany]

/-- C1: in live-capture mode, the loop of grade_single mirrors to the caller
standard output exactly the lines that do not contain the clear-screen
sequence (a line containing it is skipped by continue, so it is not mirrored),
and the returned buffer is the concatenation of the lines strictly after the
last clear-screen line. This corrects the claim that every line is mirrored
unconditionally. -/
theorem C1_live_capture_characterization (lines : List String) :
    live_capture lines = (accumulatedBuffer lines, mirroredLines lines) := by
  rw [live_capture, liveStep_foldl]
  split
  · rfl
  · rw [string_empty_append]
    rfl

/-- C1 counterexample: on the stream of the claim the final buffer is indeed
"line2\n", but only two of the three lines are written to the console — the
clear-screen line is not mirrored, refuting the unconditional-mirroring part
of the claim. -/
theorem C1_counterexample :
    (live_capture ["line1\n", "\x1bc", "line2\n"]).1 = "line2\n" ∧
    (live_capture ["line1\n", "\x1bc", "line2\n"]).2 = ["line1\n", "line2\n"] ∧
    "\x1bc" ∉ (live_capture ["line1\n", "\x1bc", "line2\n"]).2 := by decide

/-- C2: the code is wrong on the zero-test rubric case the claim (and the
spec) describe: summarize divides the passed count by the number of tests of
the rubric, which is a division fault for an empty test map, modelled here as
the none result; the spec prescribes a zero score instead. -/
theorem C2_zero_test_rubric_division_fault :
    summarize_scores [("empty", (10 : ℚ))] [("empty", [])] = none := by decide

/-! ## C3: how `is_ignored` actually matches its patterns -/

/-- Modelled from the claim wording (not from the source): the build/artifact
directory rule — some fixed directory name occurs as an exact path segment. -/
def claim_segment_rule (p : String) : Bool :=
  (splitOnChar '/' p.data).any (fun seg =>
    ["target", "build", "build_objects", ".cargo", "template", "rootfs"].any
      (fun d => seg = d.data))

/-- Modelled from the claim wording (not from the source): the filename rule —
the final filename equals one of the fixed generated-binary or lockfile names
or ends with one of the fixed suffixes. -/
def claim_filename_rule (p : String) : Bool :=
  let n := fileName p
  n = "keos_kernel" || n = "ffs.bin" || n = "sfs.bin" || n = "kelibc.a" ||
    n = "Cargo.lock" || strEndsWith n ".o" || strEndsWith n ".a"

theorem matchesIgnoredPattern_dir (p d : String) (h : strEndsWith d "/" = true) :
    matchesIgnoredPattern p d =
      (strContains p ("/" ++ strDropLast d ++ "/") ||
        strEndsWith p ("/" ++ strDropLast d)) := by
  simp [matchesIgnoredPattern, h]

theorem matchesIgnoredPattern_plain (p q : String) (h1 : strEndsWith q "/" = false)
    (h2 : strContains q "*" = false) :
    matchesIgnoredPattern p q = strContains p q := by
  simp [matchesIgnoredPattern, h1, h2]

/-- C3 counterexample: the path "/repo/src/my.old.txt" satisfies neither the
segment rule nor the filename rule of the claim (its filename merely contains
".o" as an infix), yet is_ignored classifies it as ignored, because plain
patterns are matched as substrings of the whole path. -/
theorem C3_counterexample :
    claim_segment_rule "/repo/src/my.old.txt" = false ∧
    claim_filename_rule "/repo/src/my.old.txt" = false ∧
    is_ignored "/repo/src/my.old.txt" = true := by decide

/-- C3 amended: outside the rootfs special case, is_ignored holds exactly when
one of the directory patterns occurs as an exact interior or final path
segment, or one of the plain patterns (keos_kernel, ffs.bin, sfs.bin, .o,
kelibc.a, Cargo.lock) occurs anywhere in the path string as a substring — the
directory rule of the claim is segment-exact as stated, but the filename rule
is in fact a whole-path substring match. -/
theorem C3_is_ignored_characterization (p : String)
    (h1 : strContains p "/rootfs/" = false)
    (h2 : strEndsWith p "/rootfs" = false) :
    is_ignored p =
      (strContains p "/target/" || strEndsWith p "/target" ||
       strContains p "/build/" || strEndsWith p "/build" ||
       strContains p "/build_objects/" || strEndsWith p "/build_objects" ||
       strContains p "keos_kernel" || strContains p "ffs.bin" ||
       strContains p "sfs.bin" || strContains p ".o" ||
       strContains p "kelibc.a" ||
       strContains p "/.cargo/template/" || strEndsWith p "/.cargo/template" ||
       strContains p "Cargo.lock") := by
  rw [is_ignored, if_neg (by simp [h1, h2])]
  rw [show IGNORED_PATTERNS = ["target/", "build/", "build_objects/", "keos_kernel",
    "ffs.bin", "sfs.bin", ".o", "kelibc.a", ".cargo/template/", "Cargo.lock"] from rfl]
  simp only [List.any_cons, List.any_nil]
  rw [matchesIgnoredPattern_dir p "target/" (by decide),
    matchesIgnoredPattern_dir p "build/" (by decide),
    matchesIgnoredPattern_dir p "build_objects/" (by decide),
    matchesIgnoredPattern_dir p ".cargo/template/" (by decide),
    matchesIgnoredPattern_plain p "keos_kernel" (by decide) (by decide),
    matchesIgnoredPattern_plain p "ffs.bin" (by decide) (by decide),
    matchesIgnoredPattern_plain p "sfs.bin" (by decide) (by decide),
    matchesIgnoredPattern_plain p ".o" (by decide) (by decide),
    matchesIgnoredPattern_plain p "kelibc.a" (by decide) (by decide),
    matchesIgnoredPattern_plain p "Cargo.lock" (by decide) (by decide)]
  rw [show ("/" ++ strDropLast "target/" ++ "/" : String) = "/target/" from by decide,
    show ("/" ++ strDropLast "target/" : String) = "/target" from by decide,
    show ("/" ++ strDropLast "build/" ++ "/" : String) = "/build/" from by decide,
    show ("/" ++ strDropLast "build/" : String) = "/build" from by decide,
    show ("/" ++ strDropLast "build_objects/" ++ "/" : String) = "/build_objects/" from by decide,
    show ("/" ++ strDropLast "build_objects/" : String) = "/build_objects" from by decide,
    show ("/" ++ strDropLast ".cargo/template/" ++ "/" : String) = "/.cargo/template/" from by decide,
    show ("/" ++ strDropLast ".cargo/template/" : String) = "/.cargo/template" from by decide]
  simp [Bool.or_assoc]

/-- C3 witness: the amended characterization applied at a concrete path with
its non-rootfs hypotheses discharged. -/
theorem C3_is_ignored_characterization_witness :
    strContains "/repo/keos/src/main.rs" "/rootfs/" = false ∧
    strEndsWith "/repo/keos/src/main.rs" "/rootfs" = false ∧
    is_ignored "/repo/keos/src/main.rs" =
      (strContains "/repo/keos/src/main.rs" "/target/" ||
       strEndsWith "/repo/keos/src/main.rs" "/target" ||
       strContains "/repo/keos/src/main.rs" "/build/" ||
       strEndsWith "/repo/keos/src/main.rs" "/build" ||
       strContains "/repo/keos/src/main.rs" "/build_objects/" ||
       strEndsWith "/repo/keos/src/main.rs" "/build_objects" ||
       strContains "/repo/keos/src/main.rs" "keos_kernel" ||
       strContains "/repo/keos/src/main.rs" "ffs.bin" ||
       strContains "/repo/keos/src/main.rs" "sfs.bin" ||
       strContains "/repo/keos/src/main.rs" ".o" ||
       strContains "/repo/keos/src/main.rs" "kelibc.a" ||
       strContains "/repo/keos/src/main.rs" "/.cargo/template/" ||
       strEndsWith "/repo/keos/src/main.rs" "/.cargo/template" ||
       strContains "/repo/keos/src/main.rs" "Cargo.lock") :=
  ⟨by decide, by decide,
    C3_is_ignored_characterization "/repo/keos/src/main.rs" (by decide) (by decide)⟩

/-- C4: a test passes iff its output contains the fixed success marker; on the
rubric core with weight 10 and the two given outputs, t1 passes, t2 fails, the
rubric score computed by summarize is 5 out of 10, and since only 1 of the 2
tests passed the all-tests-passed condition (passed = tests) is false. -/
theorem C4_marker_scenario :
    (grade_test (fun _ _ => .ok 0) ⟨30, none⟩
      "test result: ok. 1 passed; 0 failed").1 = true ∧
    (grade_test (fun _ _ => .ok 0) ⟨30, none⟩
      "test result: ok. 0 passed; 1 failed").1 = false ∧
    summarize_scores [("core", (10 : ℚ))]
      (grade_model (fun _ _ => .ok 0)
        [("core", [("t1", ⟨30, none⟩), ("t2", ⟨30, none⟩)])]
        (fun name => if name = "t1" then "test result: ok. 1 passed; 0 failed"
                     else "test result: ok. 0 passed; 1 failed")) =
      some ((5 : ℚ), (10 : ℚ), 1, 2) ∧
    (1 : Nat) ≠ 2 := by
  refine ⟨by decide, by decide, ?_, by decide⟩
  have hg : grade_model (fun _ _ => .ok 0)
      [("core", [("t1", (⟨30, none⟩ : TestConf)), ("t2", (⟨30, none⟩ : TestConf))])]
      (fun name => if name = "t1" then "test result: ok. 1 passed; 0 failed"
                   else "test result: ok. 0 passed; 1 failed") =
      [("core", [("t1", true), ("t2", false)])] := by decide
  rw [hg]
  simp [summarize_scores, List.lookup]
  norm_num

/-- C5: in the non-live branch of grade_single, a run that exceeds its
configured timeout, or any exception while launching or running the
subprocess, yields exactly the sentinel string "timeout" and never a partial
capture; the grading loop itself is total, so grading continues over every
rubric regardless of such failures. -/
theorem C5_timeout_sentinel (launchOk : Bool) (runtime tmo : ℚ) (stdout : String)
    (r : PosthookRunner) (rubrics : List (String × List (String × TestConf)))
    (outputs : String → String)
    (h : tmo < runtime ∨ launchOk = false) :
    grade_single_blocking (subprocess_run_model launchOk runtime tmo stdout) =
      "timeout" ∧
    (grade_model r rubrics outputs).length = rubrics.length := by
  constructor
  · rcases h with h | h
    · cases launchOk <;> simp [subprocess_run_model, grade_single_blocking, h]
    · simp [subprocess_run_model, grade_single_blocking, h]
  · simp [grade_model]

/-- C5 witness: the sentinel law applied to a concrete run that takes 2
seconds against a timeout of 1 second. -/
theorem C5_timeout_sentinel_witness :
    ((1 : ℚ) < 2 ∨ true = false) ∧
    (grade_single_blocking (subprocess_run_model true 2 1 "partial capture") =
        "timeout" ∧
      (grade_model (fun _ _ => .ok 0) [] (fun _ => "")).length =
        ([] : List (String × List (String × TestConf))).length) :=
  ⟨Or.inl (by norm_num),
    C5_timeout_sentinel true 2 1 "partial capture" (fun _ _ => .ok 0) [] (fun _ => "")
      (Or.inl (by norm_num))⟩

/-- C7: when a post-hook command is configured for a test, it is executed
exactly when the primary marker check passed; when it runs it is invoked with
the timeout of the test, the verdict becomes returncode = 0 (so a nonzero exit
overrides the pass to a failure), and a raised exception is converted into a
failing verdict instead of propagating; when the primary check fails the
post-hook is not executed and the verdict stays failed. -/
theorem C7_posthook_props (r : PosthookRunner) (conf : TestConf)
    (cmd : List String) (output : String) (hc : conf.posthook = some cmd) :
    ((grade_test r conf output).2 = true ↔
      strContains output success_marker = true) ∧
    (strContains output success_marker = true →
      (grade_test r conf output).1 =
        (match r cmd conf.timeout with
         | .ok rc => rc == 0
         | .error _ => false)) ∧
    (strContains output success_marker = false →
      grade_test r conf output = (false, false)) := by
  by_cases hp : strContains output success_marker = true
  · refine ⟨?_, ?_, ?_⟩
    · simp only [grade_test, hc, hp, if_true]
      cases r cmd conf.timeout <;> simp
    · intro _
      simp only [grade_test, hc, hp, if_true]
      cases r cmd conf.timeout <;> simp
    · intro hf
      rw [hp] at hf
      exact Bool.noConfusion hf
  · have hp' : strContains output success_marker = false := by
      revert hp; cases strContains output success_marker <;> simp
    refine ⟨?_, ?_, ?_⟩
    · simp [grade_test, hc, hp']
    · intro ht
      rw [ht] at hp'
      exact Bool.noConfusion hp'
    · intro _
      simp [grade_test, hc, hp']

/-- C7 witness: a configured post-hook whose runner raises, applied to a test
whose primary check passes: the post-hook runs and the verdict is failure. -/
theorem C7_posthook_props_witness :
    (TestConf.mk 30 (some ["validate"])).posthook = some ["validate"] ∧
    (((grade_test (fun _ _ => .error ()) ⟨30, some ["validate"]⟩
        "test result: ok. 1 passed; 0 failed").2 = true ↔
      strContains "test result: ok. 1 passed; 0 failed" success_marker = true) ∧
    (strContains "test result: ok. 1 passed; 0 failed" success_marker = true →
      (grade_test (fun _ _ => .error ()) ⟨30, some ["validate"]⟩
        "test result: ok. 1 passed; 0 failed").1 =
        (match (fun _ _ => Except.error ()  : PosthookRunner) ["validate"]
            (TestConf.mk 30 (some ["validate"])).timeout with
         | .ok rc => rc == 0
         | .error _ => false)) ∧
    (strContains "test result: ok. 1 passed; 0 failed" success_marker = false →
      grade_test (fun _ _ => .error ()) ⟨30, some ["validate"]⟩
        "test result: ok. 1 passed; 0 failed" = (false, false))) :=
  ⟨rfl, C7_posthook_props (fun _ _ => .error ()) ⟨30, some ["validate"]⟩ ["validate"]
    "test result: ok. 1 passed; 0 failed" rfl⟩

theorem mem_build_cumulative_whitelist (wl : Nat → List String) (n : Nat) (s : String) :
    s ∈ build_cumulative_whitelist wl n ↔ ∃ i, 1 ≤ i ∧ i ≤ n ∧ s ∈ wl i := by
  induction n with
  | zero =>
    simp only [build_cumulative_whitelist, Finset.not_mem_empty, false_iff]
    rintro ⟨i, h1, h2, _⟩
    omega
  | succ n ih =>
    rw [show build_cumulative_whitelist wl (n + 1) =
        build_cumulative_whitelist wl n ∪
          (if wl (n + 1) = [] then ∅ else (wl (n + 1)).toFinset) from rfl]
    rw [Finset.mem_union, ih]
    have hright : (s ∈ if wl (n + 1) = [] then (∅ : Finset String)
        else (wl (n + 1)).toFinset) ↔ s ∈ wl (n + 1) := by
      split
      · rename_i hw
        simp [hw]
      · simp
    rw [hright]
    constructor
    · rintro (⟨i, h1, h2, h3⟩ | h)
      · exact ⟨i, h1, by omega, h3⟩
      · exact ⟨n + 1, by omega, le_refl _, h⟩
    · rintro ⟨i, h1, h2, h3⟩
      by_cases hi : i = n + 1
      · exact Or.inr (hi ▸ h3)
      · exact Or.inl ⟨i, h1, by omega, h3⟩

/-- C6: the cumulative whitelist is monotone in the stage number, is exactly
the set union of the per-project whitelists of stages 1..n (so it is
insensitive to duplicates inside the per-project lists), and is unchanged
when the per-project lists are replaced by any lists with the same members
(order independence). -/
theorem C6_cumulative_whitelist_props (wl wl' : Nat → List String) (n₁ n₂ : Nat)
    (hlt : n₁ < n₂) (hsame : ∀ i s, s ∈ wl i ↔ s ∈ wl' i) :
    build_cumulative_whitelist wl n₁ ⊆ build_cumulative_whitelist wl n₂ ∧
    build_cumulative_whitelist wl n₂ =
      (Finset.range n₂).biUnion (fun k => (wl (k + 1)).toFinset) ∧
    build_cumulative_whitelist wl n₂ = build_cumulative_whitelist wl' n₂ := by
  refine ⟨?_, ?_, ?_⟩
  · intro s hs
    rw [mem_build_cumulative_whitelist] at hs ⊢
    obtain ⟨i, h1, h2, h3⟩ := hs
    exact ⟨i, h1, by omega, h3⟩
  · ext s
    rw [mem_build_cumulative_whitelist]
    simp only [Finset.mem_biUnion, Finset.mem_range, List.mem_toFinset]
    constructor
    · rintro ⟨i, h1, h2, h3⟩
      exact ⟨i - 1, by omega, by rw [show i - 1 + 1 = i from by omega]; exact h3⟩
    · rintro ⟨k, hk, h3⟩
      exact ⟨k + 1, by omega, by omega, h3⟩
  · ext s
    rw [mem_build_cumulative_whitelist, mem_build_cumulative_whitelist]
    exact exists_congr fun i =>
      and_congr_right fun _ => and_congr_right fun _ => hsame i s

/-- C6 witness: the three properties applied at stages 1 and 2 with a
concrete whitelist function that even contains a duplicate entry. -/
theorem C6_cumulative_whitelist_props_witness :
    (1 < 2 ∧ ∀ (i : Nat) (s : String),
      s ∈ (fun _ => ["a", "a", "b"]) i ↔ s ∈ (fun _ => ["b", "a"]) i) ∧
    (build_cumulative_whitelist (fun _ => ["a", "a", "b"]) 1 ⊆
        build_cumulative_whitelist (fun _ => ["a", "a", "b"]) 2 ∧
      build_cumulative_whitelist (fun _ => ["a", "a", "b"]) 2 =
        (Finset.range 2).biUnion (fun k => ((fun _ => ["a", "a", "b"]) (k + 1)).toFinset) ∧
      build_cumulative_whitelist (fun _ => ["a", "a", "b"]) 2 =
        build_cumulative_whitelist (fun _ => ["b", "a"]) 2) :=
  ⟨⟨by decide, fun i s => by simp [or_comm]⟩,
    C6_cumulative_whitelist_props (fun _ => ["a", "a", "b"]) (fun _ => ["b", "a"]) 1 2
      (by decide) (fun i s => by simp [or_comm])⟩

/-- C8: a file whose path is classified as ignored is never among the
violation records of a scan, for every directory, whitelist, stage number and
mode (the returned violation list of check_directory_integrity is exactly the
relative paths of those records, and the mode argument does not change it). -/
theorem C8_ignored_never_violation (dirExists : Bool) (files : List ScannedFile)
    (directory_name : String) (cumulative_whitelist : List String)
    (current_project_num : Nat) (mode : String) (f : ScannedFile)
    (hi : is_ignored f.path = true) :
    f ∉ violation_records dirExists files directory_name cumulative_whitelist
      current_project_num ∧
    check_directory_integrity dirExists files directory_name cumulative_whitelist
      current_project_num mode =
      (violation_records dirExists files directory_name cumulative_whitelist
        current_project_num).map ScannedFile.rel_path := by
  refine ⟨?_, rfl⟩
  intro hf
  rw [violation_records] at hf
  split at hf
  · exact absurd hf (List.not_mem_nil f)
  · have hv := List.of_mem_filter hf
    rw [file_violation, if_pos hi] at hv
    exact Bool.noConfusion hv

/-- C8 witness: a concrete ignored file (under a target directory) placed in
the scanned tree with a hash that differs from its reference, still absent
from the violations. -/
theorem C8_ignored_never_violation_witness :
    is_ignored "/repo/keos/target/x.rs" = true ∧
    ((⟨"/repo/keos/target/x.rs", "target/x.rs", true, some "h1", some "h2"⟩ : ScannedFile) ∉
        violation_records true
          [⟨"/repo/keos/target/x.rs", "target/x.rs", true, some "h1", some "h2"⟩]
          "keos" [] 0 ∧
      check_directory_integrity true
          [⟨"/repo/keos/target/x.rs", "target/x.rs", true, some "h1", some "h2"⟩]
          "keos" [] 0 "warn" =
        (violation_records true
            [⟨"/repo/keos/target/x.rs", "target/x.rs", true, some "h1", some "h2"⟩]
            "keos" [] 0).map ScannedFile.rel_path) :=
  ⟨by decide,
    C8_ignored_never_violation true
      [⟨"/repo/keos/target/x.rs", "target/x.rs", true, some "h1", some "h2"⟩]
      "keos" [] 0 "warn"
      ⟨"/repo/keos/target/x.rs", "target/x.rs", true, some "h1", some "h2"⟩
      (by decide)⟩

/-- C9: a non-ignored, non-whitelisted file whose reference counterpart does
not exist is skipped by the scan: it is never a violation record, and the
returned list is the same in warn mode and in override mode. -/
theorem C9_missing_reference_skipped (dirExists : Bool) (files : List ScannedFile)
    (directory_name : String) (cumulative_whitelist : List String)
    (current_project_num : Nat) (f : ScannedFile)
    (hig : is_ignored f.path = false)
    (hwl : is_whitelisted directory_name cumulative_whitelist current_project_num
      f.rel_path = false)
    (horig : f.originalExists = false) :
    f ∉ violation_records dirExists files directory_name cumulative_whitelist
      current_project_num ∧
    check_directory_integrity dirExists files directory_name cumulative_whitelist
      current_project_num "warn" =
      check_directory_integrity dirExists files directory_name cumulative_whitelist
        current_project_num "override" := by
  refine ⟨?_, rfl⟩
  intro hf
  rw [violation_records] at hf
  split at hf
  · exact absurd hf (List.not_mem_nil f)
  · have hv := List.of_mem_filter hf
    rw [file_violation, if_neg (by simp [hig]), if_neg (by simp [hwl]),
      if_pos horig] at hv
    exact Bool.noConfusion hv

/-- C9 witness: a concrete new file with no template counterpart, scanned but
not reported. -/
theorem C9_missing_reference_skipped_witness :
    is_ignored "/repo/keos/src/new.rs" = false ∧
    is_whitelisted "keos" [] 0 "src/new.rs" = false ∧
    (⟨"/repo/keos/src/new.rs", "src/new.rs", false, some "h1", none⟩ : ScannedFile).originalExists = false ∧
    ((⟨"/repo/keos/src/new.rs", "src/new.rs", false, some "h1", none⟩ : ScannedFile) ∉
        violation_records true
          [⟨"/repo/keos/src/new.rs", "src/new.rs", false, some "h1", none⟩]
          "keos" [] 0 ∧
      check_directory_integrity true
          [⟨"/repo/keos/src/new.rs", "src/new.rs", false, some "h1", none⟩]
          "keos" [] 0 "warn" =
        check_directory_integrity true
          [⟨"/repo/keos/src/new.rs", "src/new.rs", false, some "h1", none⟩]
          "keos" [] 0 "override") :=
  ⟨by decide, by decide, rfl,
    C9_missing_reference_skipped true
      [⟨"/repo/keos/src/new.rs", "src/new.rs", false, some "h1", none⟩]
      "keos" [] 0
      ⟨"/repo/keos/src/new.rs", "src/new.rs", false, some "h1", none⟩
      (by decide) (by decide) rfl⟩

/-- C10: when the scanned directory does not exist, check_directory_integrity
returns the empty violation list for every file set, whitelist, stage number
and mode, and collects no violation records at all. -/
theorem C10_missing_directory_empty (files : List ScannedFile)
    (directory_name : String) (cumulative_whitelist : List String)
    (current_project_num : Nat) (mode : String) :
    check_directory_integrity false files directory_name cumulative_whitelist
      current_project_num mode = [] ∧
    violation_records false files directory_name cumulative_whitelist
      current_project_num = [] := ⟨rfl, rfl⟩

end KeOSRun
